import Mathlib

/-!
Verification of the `iterfun` CPython extension module (`src/fun.c`).

The C source defines:
  * `hello_world(self, args)` — a `METH_VARARGS` function whose whole body is
    `return Py_BuildValue("s", "hello, world!");`
  * `module_functions` — the method table, one real entry followed by the
    NULL sentinel,
  * `iterfun_module` — the `PyModuleDef` (name `"iterfun"`, no doc, size -1),
  * `PyInit_iterfun` — returns `PyModule_Create(&iterfun_module)`.

Shallow embedding: Python objects are an inductive type (`pyNone`, strings and
tuples suffice for everything the module touches); a C function that can signal
an error by returning NULL is embedded as returning `Option PyObject`, where
`none` is the NULL / error result.  Since the body of `hello_world` performs no
assignment to any static or global, the observable module state (the module
object with its name and method table) is threaded explicitly through
`callStep` and is returned unchanged, exactly as the C body leaves it.
-/

/-- The Python values this module can ever see or produce: the `None`
singleton, strings, and argument tuples. -/
inductive PyObject where
  | pyNone : PyObject
  | str : String → PyObject
  | tuple : List PyObject → PyObject

/-- `Py_BuildValue("s", s)` for a non-NULL C string `s`: builds a Python
string object carrying `s`.  (Out-of-memory, the only C failure mode, is
outside the embedding.) -/
def Py_BuildValue_s (s : String) : Option PyObject :=
  some (PyObject.str s)

/-- Embedding of `hello_world` (src/fun.c lines 4-7): both parameters are
ignored and the body is a single `return Py_BuildValue("s", "hello, world!")`. -/
def hello_world (self args : PyObject) : Option PyObject :=
  Py_BuildValue_s "hello, world!"

/-- `METH_VARARGS` flag value from CPython's `methodobject.h`. -/
def METH_VARARGS : Nat := 1

/-- One row of a `PyMethodDef` table; `none` fields model the NULL pointers
of the sentinel row. -/
structure PyMethodDef where
  ml_name : Option String
  ml_meth : Option (PyObject → PyObject → Option PyObject)
  ml_flags : Nat
  ml_doc : Option String

/-- Embedding of the `module_functions` table (src/fun.c lines 10-13):
the single `hello_world` entry followed by the all-NULL sentinel. -/
def module_functions : List PyMethodDef :=
  [ PyMethodDef.mk (some "hello_world") (some hello_world) METH_VARARGS
      (some "print hello world"),
    PyMethodDef.mk none none 0 none ]

/-- Embedding of `struct PyModuleDef` with the fields `src/fun.c` sets:
`m_name`, `m_doc`, `m_size`, `m_methods`. -/
structure PyModuleDef where
  m_name : String
  m_doc : Option String
  m_size : Int
  m_methods : List PyMethodDef

/-- Embedding of `iterfun_module` (src/fun.c lines 15-21). -/
def iterfun_module : PyModuleDef :=
  PyModuleDef.mk "iterfun" none (-1) module_functions

/-- A created module object: its name and its method table, the state the
host can observe. -/
structure PyModule where
  name : String
  methods : List PyMethodDef

/-- `PyModule_Create`: materialise a module object from a `PyModuleDef`. -/
def PyModule_Create (d : PyModuleDef) : Option PyModule :=
  some (PyModule.mk d.m_name d.m_methods)

/-- Embedding of `PyInit_iterfun` (src/fun.c lines 25-27). -/
def PyInit_iterfun : Option PyModule :=
  PyModule_Create iterfun_module

/-- The names the method table exposes: the `ml_name` fields of the non-NULL
rows (the sentinel contributes nothing). -/
def registeredNames : List String :=
  module_functions.filterMap (fun m => m.ml_name)

/-- The CPython call step for a `METH_VARARGS` entry: the interpreter packs
the positional arguments into a tuple and invokes the C function on
`(self, argtuple)`; a NULL `ml_meth` (the sentinel) is not callable. -/
def callMethod (m : PyMethodDef) (self : PyObject) (argList : List PyObject) :
    Option PyObject :=
  match m.ml_meth with
  | some f => f self (PyObject.tuple argList)
  | none => none

/-- One call of `hello_world` with the module state threaded through: the C
body contains no write to any static or global, so the state component is
exactly the input state. -/
def callStep (st : PyModule) (self args : PyObject) :
    PyModule × Option PyObject :=
  (st, hello_world self args)

/-- Run a sequence of calls, collecting the results and the final state. -/
def runSeq (st : PyModule) (calls : List (PyObject × PyObject)) :
    PyModule × List (Option PyObject) :=
  match calls with
  | [] => (st, [])
  | c :: rest =>
      let r := callStep st c.1 c.2
      let rr := runSeq r.1 rest
      (rr.1, r.2 :: rr.2)

/-- The trace of module states observable before, between and after the
calls of a sequence. -/
def runStates (st : PyModule) (calls : List (PyObject × PyObject)) :
    List PyModule :=
  match calls with
  | [] => [st]
  | c :: rest => st :: runStates (callStep st c.1 c.2).1 rest

/-- Helper: a run returns the constant string once per call and leaves the
state untouched. -/
theorem runSeq_eq (st : PyModule) (calls : List (PyObject × PyObject)) :
    runSeq st calls =
      (st, List.replicate calls.length (some (PyObject.str "hello, world!"))) := by
  induction calls with
  | nil => rfl
  | cons c rest ih =>
      simp [runSeq, callStep, hello_world, Py_BuildValue_s, ih, List.replicate]

/-- Helper: every observable state in the trace of a run is the initial one. -/
theorem runStates_eq (st : PyModule) (calls : List (PyObject × PyObject)) :
    runStates st calls = List.replicate (calls.length + 1) st := by
  induction calls generalizing st with
  | nil => rfl
  | cons c rest ih =>
      simp [runStates, callStep, ih, List.replicate]

/-- Claim C1: for every invocation — any `self`, any argument object —
`hello_world` returns exactly the string `"hello, world!"`. -/
theorem hello_world_returns_constant (self args : PyObject) :
    hello_world self args = some (PyObject.str "hello, world!") :=
  rfl

/-- Claim C2, counterexample: invoking the registered `hello_world` entry
through the `METH_VARARGS` dispatch with one extra argument does NOT yield an
error (the NULL / `none` result); the extra argument is accepted and the
constant string is returned. -/
theorem hello_world_extra_arg_not_rejected :
    callMethod
        (PyMethodDef.mk (some "hello_world") (some hello_world) METH_VARARGS
          (some "print hello world"))
        PyObject.pyNone [PyObject.str "extra"]
      = some (PyObject.str "hello, world!") ∧
    (callMethod
        (PyMethodDef.mk (some "hello_world") (some hello_world) METH_VARARGS
          (some "print hello world"))
        PyObject.pyNone [PyObject.str "extra"]).isSome = true :=
  ⟨rfl, rfl⟩

/-- Claim C2 as amended: calling `hello_world` with one extra argument is
accepted, not rejected — no argument validation is performed, and the call
returns `"hello, world!"` without error, for any caller and any extra
argument. -/
theorem hello_world_extra_arg_accepted (self extra : PyObject) :
    hello_world self (PyObject.tuple [extra]) = some (PyObject.str "hello, world!") ∧
    (hello_world self (PyObject.tuple [extra])).isSome = true :=
  ⟨rfl, rfl⟩

/-- Claim C3: `hello_world` is deterministic and free of observable side
effects — over any sequence of calls, every call returns the identical
constant result, and every module state observable between calls equals the
initial state. -/
theorem hello_world_pure_sequential (st : PyModule)
    (calls : List (PyObject × PyObject)) :
    (runSeq st calls).2 =
        calls.map (fun _ => some (PyObject.str "hello, world!")) ∧
    runStates st calls = List.replicate (calls.length + 1) st := by
  refine ⟨?_, runStates_eq st calls⟩
  rw [runSeq_eq]
  simp

/-- Claim C4: `hello_world` has no failure modes — for every invocation the
result is a normal (`some`) value, never the NULL / error result. -/
theorem hello_world_never_fails (self args : PyObject) :
    (hello_world self args).isSome = true :=
  rfl

/-- Claim C5: the result of `hello_world` is independent of its inputs —
any two calls with arbitrary `self` and `args` values agree, and for an
argument tuple of any length the result is still the constant string. -/
theorem hello_world_input_independent (s a t b : PyObject)
    (xs : List PyObject) :
    hello_world s a = hello_world t b ∧
    hello_world s (PyObject.tuple xs) = some (PyObject.str "hello, world!") :=
  ⟨rfl, rfl⟩

/-- Claim C6: the module's sole external interface is the single entry
point named `"hello_world"` — the method table exposes exactly that one
name — and called with zero arguments it returns a text (string) value. -/
theorem iterfun_sole_interface (self : PyObject) :
    registeredNames = ["hello_world"] ∧
    callMethod
        (PyMethodDef.mk (some "hello_world") (some hello_world) METH_VARARGS
          (some "print hello world"))
        self []
      = some (PyObject.str "hello, world!") :=
  ⟨rfl, rfl⟩

/-- Claim C7: the component is stateless — a single call leaves the module
state unchanged, and so does any sequence of calls from any starting state:
the state machine has one state and no transitions. -/
theorem hello_world_stateless (st : PyModule) (self args : PyObject)
    (st2 : PyModule) (calls : List (PyObject × PyObject)) :
    (callStep st self args).1 = st ∧ (runSeq st2 calls).1 = st2 := by
  refine ⟨rfl, ?_⟩
  rw [runSeq_eq]

/-- Claim C8: the only data value is the immutable literal string
`"hello, world!"` — every call builds its result from that constant, the
returned object is exactly that string, and running any sequence of calls
preserves the method table holding the definition. -/
theorem hello_string_constant_preserved (self args : PyObject)
    (st : PyModule) (calls : List (PyObject × PyObject)) :
    hello_world self args = Py_BuildValue_s "hello, world!" ∧
    hello_world self args = some (PyObject.str "hello, world!") ∧
    (runSeq st calls).1.methods = st.methods := by
  refine ⟨rfl, rfl, ?_⟩
  rw [runSeq_eq]

/-- Claim C9: `PyInit_iterfun` creates a module named `"iterfun"` whose
method table is exactly one entry — name `"hello_world"`, function
`hello_world`, flags `METH_VARARGS`, docstring `"print hello world"` —
followed by the NULL sentinel. -/
theorem iterfun_module_registration :
    PyInit_iterfun = some (PyModule.mk "iterfun" module_functions) ∧
    module_functions =
      [ PyMethodDef.mk (some "hello_world") (some hello_world) METH_VARARGS
          (some "print hello world"),
        PyMethodDef.mk none none 0 none ] ∧
    iterfun_module.m_name = "iterfun" ∧
    METH_VARARGS = 1 :=
  ⟨rfl, rfl, rfl, rfl⟩

/-- Claim C10: `hello_world` is safe under concurrent invocation — for any
number of calls, scheduled in any interleaving (any call list of that
length, from any observed module state), every call yields the same
constant string and the shared state is never written. -/
theorem hello_world_concurrent_uniform (st : PyModule)
    (calls : List (PyObject × PyObject)) :
    (runSeq st calls).2 =
        List.replicate calls.length (some (PyObject.str "hello, world!")) ∧
    (runSeq st calls).1 = st := by
  rw [runSeq_eq]
  exact ⟨rfl, rfl⟩
